import Mathlib

/-
Verification of the virtac record-propagation core.

The definitions below are a shallow embedding of the Python sources
src/virtac/pv.py and src/virtac/virtac_server.py.  Numeric record values are
modelled as rationals, record stores and name registries as lists, fallible
operations as Except / Option results, and each stateful callback as an
explicit state-transition function.  External collaborators (the softioc
record-serving runtime, the Python float() builtin and numpy.fromstring) are
modelled from their interfaces as described in the specification; everything
else follows the Python source line by line.
-/

namespace Virtac

/-- Decidable equality of Except results, so that model runs on concrete
inputs can be checked by evaluation. -/
instance {ε α : Type} [DecidableEq ε] [DecidableEq α] : DecidableEq (Except ε α) := fun a b =>
  match a, b with
  | .ok a, .ok b => if h : a = b then isTrue (by simp [h]) else isFalse (by simp [h])
  | .error e, .error f => if h : e = f then isTrue (by simp [h]) else isFalse (by simp [h])
  | .ok _, .error _ => isFalse (by simp)
  | .error _, .ok _ => isFalse (by simp)

/-! ## Configuration value parsing

Models the initial-value parsing shared by
VirtacServer._create_feedback_or_bba_records_from_csv and
VirtacServer._create_mirror_records:

    if (line["value"][0], line["value"][-1]) == ("[", "]"):
        val = numpy.fromstring((line["value"])[1:-1], sep=" ")
    else:
        val = float(line["value"])
    except (AssertionError, ValueError) as exc:
        raise ValueError(...) from exc
-/

/-- Numeric value of a decimal digit character. -/
def digitVal (c : Char) : Nat := c.toNat - 48

/-- Value of a string of decimal digits. -/
def digitsToNat (cs : List Char) : Nat :=
  cs.foldl (fun n c => 10 * n + digitVal c) 0

/-- All characters are decimal digits. -/
def allDigits (cs : List Char) : Bool := cs.all Char.isDigit

/-- Model of the external Python float() conversion on an unsigned numeral:
decimal digits with an optional fractional part ("1", "2.5", ".5", "1.").
Exponent, inf/nan and underscore forms of Python float() are not used by the
configuration values of this system and are outside the model. -/
def pyFloatUnsigned (cs : List Char) : Option ℚ :=
  match cs.splitOn '.' with
  | [ip] =>
    if !ip.isEmpty && allDigits ip then some (digitsToNat ip : ℚ) else none
  | [ip, fp] =>
    if (!ip.isEmpty || !fp.isEmpty) && allDigits ip && allDigits fp then
      some ((digitsToNat ip : ℚ) + (digitsToNat fp : ℚ) / ((10 : ℚ) ^ fp.length))
    else none
  | _ => none

/-- Model of the external Python float() conversion: optional sign, then an
unsigned numeral. -/
def pyFloatSigned : List Char → Option ℚ
  | '+' :: rest => pyFloatUnsigned rest
  | '-' :: rest => (pyFloatUnsigned rest).map (fun q => -q)
  | cs => pyFloatUnsigned cs

/-- Leading and trailing whitespace removal, as Python float() performs. -/
def trimChars (cs : List Char) : List Char :=
  ((cs.dropWhile Char.isWhitespace).reverse.dropWhile Char.isWhitespace).reverse

/-- Model of the external Python float() builtin (none = ValueError). -/
def pyFloat (s : String) : Option ℚ := pyFloatSigned (trimChars s.data)

/-- Greedy value reading of numpy's text-mode parser: values are read from
the separated tokens in order and reading stops at the first token that is
not a numeral, returning the values parsed so far. -/
def fromstringGreedy : List (List Char) → List ℚ
  | [] => []
  | t :: ts =>
    match pyFloatSigned (trimChars t) with
    | some q => q :: fromstringGreedy ts
    | none => []

/-- Model of the external numpy.fromstring(text, sep=" ") call, per numpy's
documented text-mode behavior: values are read greedily and a string that is
not fully consumed (a malformed tail) only emits a DeprecationWarning while
the partial array is returned; only a string yielding no value at all raises
ValueError (none). -/
def fromstringSpace (cs : List Char) : Option (List ℚ) :=
  let toks := (cs.splitOn ' ').filter (fun t => !t.isEmpty)
  match fromstringGreedy toks with
  | [] => none
  | qs => some qs

/-- A parsed configuration value: a scalar float or a numeric array. -/
inductive ParsedValue where
  | scalar (q : ℚ)
  | arr (qs : List ℚ)
deriving DecidableEq, Repr

/-- An exception escaping the value-parsing code.  indexError models the
IndexError from evaluating value[0] on an empty string; valueError models the
ValueError re-raised from the except clause. -/
inductive ParseErr where
  | indexError
  | valueError (v : String)
deriving DecidableEq, Repr

/-- The Python test (value[0], value[-1]) == ("[", "]"). -/
def isBracketed (cs : List Char) : Bool :=
  !cs.isEmpty && cs.headD 'x' = '[' && cs.getLastD 'x' = ']'

/-- The value-parsing logic of the two record-creating csv loops in
virtac_server.py: a [..]-bracketed value goes through numpy.fromstring on its
interior (value[1:-1]), anything else through float(); both failure modes are
re-raised as ValueError, and an empty value raises IndexError at value[0]. -/
def parseValue (s : String) : Except ParseErr ParsedValue :=
  if s.data.isEmpty then .error .indexError
  else if isBracketed s.data then
    match fromstringSpace ((s.data.drop 1).dropLast) with
    | some qs => .ok (.arr qs)
    | none => .error (.valueError s)
  else
    match pyFloat s with
    | some q => .ok (.scalar q)
    | none => .error (.valueError s)

/-! ## OffsetPV and RefreshPV (pv.py)

OffsetPV._on_update runs when the setpoint record processes:

    self._in_pv.set(value)
    if self._offset_record is not None:
        offset = self._offset_record.get()
        value += offset
    else:
        raise ValueError(f"No offset record specified for OffsetPV: {self.name}")
    elements, field = self._in_pv.get_pytac_data()
    for element in elements:
        element.set_value(field, value, units=pytac.ENG, data_source=pytac.SIM)

RefreshPV.refresh runs when the monitored delta source notifies:

    self._record.set(value)
    self._record_to_refresh.get_record().set_field("PROC", 1)

Forcing the setpoint record to process re-runs OffsetPV._on_update with the
record's current, unchanged value.
-/

/-- State touched by an OffsetPV and its attached offset record.
offsetRecord is the current value held by the attached offset PV record
(none when _offset_record is None); setpointRecord is the OffsetPV's own
softioc record (the externally visible setpoint); readbackRecord is the
paired _in_pv record (the externally visible readback); simWrites holds the
simulator-side value of the (item, field) binding of each pytac item bound
to _in_pv. -/
structure OffsetState where
  offsetRecord : Option ℚ
  setpointRecord : ℚ
  readbackRecord : ℚ
  simWrites : List ℚ
deriving DecidableEq, Repr

/-- OffsetPV._on_update: store the unmodified value into the paired readback
record, then add the offset and push the result to every bound pytac item;
without an attached offset record a ValueError is raised after the readback
store and before any simulator write.  The second component is the raised
exception message, if any. -/
def offsetOnUpdate (value : ℚ) (s : OffsetState) : OffsetState × Option String :=
  let s1 := { s with readbackRecord := value }
  match s1.offsetRecord with
  | some offset =>
    ({ s1 with simWrites := s1.simWrites.map (fun _ => value + offset) }, none)
  | none => (s1, some "No offset record specified for OffsetPV")

/-- OffsetPV.attach_offset_record: attach the offset source (modelled by the
value its record currently holds). -/
def attachOffsetRecord (d : ℚ) (s : OffsetState) : OffsetState :=
  { s with offsetRecord := some d }

/-- RefreshPV.refresh: store the notified delta into the cannibalised record
(the record the OffsetPV consults as its offset source), then force the
setpoint record to process, which re-runs OffsetPV._on_update with the
setpoint record's current value. -/
def refreshNotify (delta : ℚ) (s : OffsetState) : OffsetState × Option String :=
  let s1 := { s with offsetRecord := some delta }
  offsetOnUpdate s1.setpointRecord s1

/-! ## SummationPV (pv.py)

    def summate(self, value=None, index=None):
        value = sum([pv.get() for pv in self._summate_pvs])
        self._record.set(value)
-/

/-- State of a SummationPV: the current values of the PVs in _summate_pvs and
this PV's own record. -/
structure SummationState where
  sources : List ℚ
  record : ℚ
deriving DecidableEq, Repr

/-- SummationPV.summate: the notified value and index are ignored; every
subscribed source is re-read and the sum is stored in this PV's record. -/
def summateNotify (_value : Option ℚ) (_index : Option Nat) (s : SummationState) :
    SummationState :=
  { s with record := s.sources.sum }

/-! ## InversionPV (pv.py)

    if (len(self._invert_pvs)) == 1:
        value = numpy.asarray(value, dtype=bool)
        value = numpy.asarray(numpy.invert(value), dtype=int)
    elif (len(self._invert_pvs)) > 1:
        value = numpy.array([record.get() for record in self._invert_pvs], dtype=bool)
        value = numpy.asarray(numpy.invert(value), dtype=int)
    else:
        raise Exception
    self._record.set(value)
    self._record.set_field("PROC", 1)
-/

/-- numpy truthiness of a numeric cell: nonzero is True. -/
def pyBool (x : ℚ) : Bool := x ≠ 0

/-- An inverted cell rendered back to int, as numpy.asarray(invert(b), int). -/
def invertElem (x : ℚ) : ℚ := if pyBool x then 0 else 1

/-- State of an InversionPV: the current values of the PVs in _invert_pvs and
this PV's own waveform record. -/
structure InversionState where
  sources : List ℚ
  record : List ℚ
deriving DecidableEq, Repr

/-- InversionPV.invert: with exactly one source the notified value is treated
as a boolean vector and inverted elementwise; with several sources all
sources are re-read, assembled into a boolean array and inverted; with no
sources an exception is raised. -/
def invertNotify (value : List ℚ) (_index : Option Nat) (s : InversionState) :
    Except Unit InversionState :=
  if s.sources.length == 1 then
    .ok { s with record := value.map invertElem }
  else if s.sources.length > 1 then
    .ok { s with record := s.sources.map invertElem }
  else
    .error ()

/-! ## CollationPV (pv.py)

Notification callback (registered for every monitored source):

    def _set_update_required(self, value=None, index=None):
        self._update_required = True

Drain loop:

    def _periodic_update(self):
        while True:
            if self._update_required:
                self.collate()
            else:
                cothread.Sleep(self._minimum_time_between_updates)

    def collate(self):
        if time.time() - self._last_update_time < self._minimum_time_between_updates:
            cothread.Sleep(time.time() - self._last_update_time)
        value = numpy.array([record.get() for record in self._collate_pvs])
        self._record.set(value)
        self._record.set_field("PROC", 1)
        self._last_update_time = time.time()
        self._update_required = False

Wall-clock time is modelled as a rational number of seconds passed in
explicitly; a Sleep of duration d moves the clock to now + d.
-/

/-- _minimum_time_between_updates = 0.2 seconds (the 5 Hz ceiling). -/
def minimumTimeBetweenUpdates : ℚ := 1/5

/-- State of a CollationPV: the current values of the PVs in _collate_pvs,
this PV's waveform record, the _update_required flag and _last_update_time. -/
structure CollationState where
  sources : List ℚ
  record : List ℚ
  updateRequired : Bool
  lastUpdateTime : ℚ
deriving DecidableEq, Repr

/-- CollationPV._set_update_required: the notified value and index are
ignored; the callback only marks an update as pending. -/
def setUpdateRequired (_value : Option ℚ) (_index : Option Nat) (s : CollationState) :
    CollationState :=
  { s with updateRequired := true }

/-- CollationPV.collate entered at wall-clock time now: if less than the
minimum interval has elapsed since the last store, sleep for the elapsed time
(time.time() - _last_update_time, exactly as the source computes it), then
re-read every source, store the collated array and stamp the store time.
Returns the post state and the time at which the store happened. -/
def collate (now : ℚ) (s : CollationState) : CollationState × ℚ :=
  let storeTime :=
    if now - s.lastUpdateTime < minimumTimeBetweenUpdates then
      now + (now - s.lastUpdateTime)
    else now
  ({ s with record := s.sources, lastUpdateTime := storeTime, updateRequired := false },
   storeTime)

/-- One pass of CollationPV._periodic_update at wall-clock time now: a
pending flag triggers exactly one collate pass (the store time is returned);
otherwise the loop sleeps for the minimum interval and nothing is stored. -/
def periodicUpdateStep (now : ℚ) (s : CollationState) : CollationState × Option ℚ :=
  if s.updateRequired then
    let r := collate now s
    (r.1, some r.2)
  else (s, none)

/-! ## MonitorPV subscription lifecycle (pv.py)

    def setup_pv_monitoring(self, pv_names, callbacks):
        if callbacks is None:
            callbacks = [self.set]
        for pv_name in pv_names:
            if not isinstance(pv_name, str):
                raise TypeError(...)
            elif pv_name in self._monitor_data:
                logging.warning(...)
                pv_names.remove(pv_name)
        if len(callbacks) == 1:
            self._setup_pv_monitoring_group(pv_names, callbacks[0])
        else:
            self._setup_pv_monitoring_individual(pv_names, callbacks)

    def toggle_monitoring(self, enable):
        if enable:
            pv_names, callback_list = unzip(self._monitor_data)
            self.setup_pv_monitoring(pv_names, callback_list)
        else:
            for handle in self._camonitor_handles:
                handle.close()
            self._camonitor_handles.clear()

_monitor_data is a list of (pv_name, callback) tuples, so the Python
membership test compares a str with each tuple and is always False.
-/

/-- Callbacks are identified abstractly (self.set, self.refresh, ...). -/
abbrev Callback := Nat

/-- A live camonitor subscription: single is camonitor(name, cb); groupMember
is one element of the subscription list returned by camonitor(names, cb),
which delivers updates tagged with the index of the changed name. -/
inductive CamonitorSub where
  | single (pvName : String) (cb : Callback)
  | groupMember (pvName : String) (idx : Nat) (cb : Callback)
deriving DecidableEq, Repr

/-- Subscription state of a MonitorPV: _monitor_data and _camonitor_handles. -/
structure MonitorState where
  monitorData : List (String × Callback)
  handles : List CamonitorSub
deriving DecidableEq, Repr

/-- The Python test pv_name in self._monitor_data: a str is compared for
equality with each (str, callable) tuple in the list, and in Python a str
never equals a tuple, so the test is always False and the
already-being-monitored branch is unreachable. -/
def strInPairList (_name : String) (l : List (String × Callback)) : Bool :=
  l.any (fun _ => false)

/-- MonitorPV._setup_pv_monitoring_group: record every (name, callback) pair
and extend the handles with the group subscription camonitor(names, cb). -/
def setupPvMonitoringGroup (pvNames : List String) (cb : Callback) (s : MonitorState) :
    MonitorState :=
  { monitorData := s.monitorData ++ pvNames.map (fun n => (n, cb)),
    handles := s.handles ++ pvNames.enum.map (fun p => .groupMember p.2 p.1 cb) }

/-- MonitorPV._setup_pv_monitoring_individual: zip names with callbacks
(strict zip; the call sites pass lists of equal length), record each pair and
open one camonitor per pair. -/
def setupPvMonitoringIndividual (pvNames : List String) (cbs : List Callback)
    (s : MonitorState) : MonitorState :=
  { monitorData := s.monitorData ++ pvNames.zip cbs,
    handles := s.handles ++ (pvNames.zip cbs).map (fun p => .single p.1 p.2) }

/-- MonitorPV.setup_pv_monitoring: default the callbacks to [self.set], run
the (vacuous) already-monitored filter, then dispatch on len(callbacks). -/
def setupPvMonitoring (pvNames : List String) (callbacks : Option (List Callback))
    (selfSet : Callback) (s : MonitorState) : MonitorState :=
  let cbs := match callbacks with | none => [selfSet] | some l => l
  let names := pvNames.filter (fun n => !(strInPairList n s.monitorData))
  match cbs with
  | [c] => setupPvMonitoringGroup names c s
  | _ => setupPvMonitoringIndividual names cbs s

/-- MonitorPV.__init__: start from empty subscription state and run
setup_pv_monitoring once. -/
def monitorInit (pvNames : List String) (callbacks : Option (List Callback))
    (selfSet : Callback) : MonitorState :=
  setupPvMonitoring pvNames callbacks selfSet ⟨[], []⟩

/-- MonitorPV.toggle_monitoring: disabling closes and clears every camonitor
handle; enabling replays setup_pv_monitoring on the names and callbacks read
back from _monitor_data. -/
def toggleMonitoring (enable : Bool) (selfSet : Callback) (s : MonitorState) :
    MonitorState :=
  if enable then
    setupPvMonitoring (s.monitorData.map Prod.fst)
      (some (s.monitorData.map Prod.snd)) selfSet s
  else
    { s with handles := [] }

/-! ## Graph construction (virtac_server.py)

_create_feedback_or_bba_records_from_csv processes each row by parsing the
initial value, constructing the PV — whose constructor creates the softioc
record — and then inserting the PV into _pv_dict under its name:

    record_data = RecordData(line["record_type"], initial_value=val)
    pv = PV(name, record_data)
    ...
    self._pv_dict[name] = pv

_create_mirror_records additionally checks the input arity against the
mirror type, resolves every input name through _pv_dict with a
channel-access fallback, and validates the mirror type:

    try:
        input_records.append(self._pv_dict[pv])
    except KeyError:
        input_records.append(CaPV(pv))

The record-serving runtime (softioc builder) is an external collaborator;
per its contract in the specification a record creation under an existing
name fails with DuplicateNameError, before the new PV reaches _pv_dict.
-/

/-- An exception escaping graph construction. -/
inductive BuildErr where
  | invalidValue (v : String)
  | duplicateName (n : String)
  | arityError (msg : String)
  | badMirrorType (t : String)
deriving DecidableEq, Repr

/-- Model of the external record-serving runtime's record registry: creating
a record under an existing name fails with DuplicateNameError naming it. -/
def createRecord (store : List String) (name : String) : Except String (List String) :=
  if name ∈ store then .error name else .ok (store ++ [name])

/-- Python dict assignment d[k] = v: replace the value under an existing key,
otherwise append the new binding. -/
def dictSet (d : List (String × Nat)) (k : String) (v : Nat) : List (String × Nat) :=
  if k ∈ d.map Prod.fst then d.map (fun p => if p.1 = k then (k, v) else p)
  else d ++ [(k, v)]

/-- Python dict lookup d[k] as an Option. -/
def dictGet (d : List (String × Nat)) (k : String) : Option Nat :=
  (d.find? (fun p => p.1 = k)).map Prod.snd

/-- Construction state: the external record registry and _pv_dict.  PVs are
identified by the number of the configuration row that created them. -/
structure BuildState where
  store : List String
  pvDict : List (String × Nat)
deriving DecidableEq, Repr

/-- A row of a feedback/bba csv file (columns index, field, pv, value,
record_type; only the columns the modelled control flow reads are kept). -/
structure FbRow where
  pv : String
  value : String
deriving DecidableEq, Repr

/-- One iteration of the _create_feedback_or_bba_records_from_csv loop:
parse the initial value (a failure is re-raised as ValueError), create the
softioc record (a duplicate name is fatal), then insert into _pv_dict. -/
def processFbRow (st : BuildState) (rowId : Nat) (row : FbRow) :
    Except BuildErr BuildState :=
  match parseValue row.value with
  | .error _ => .error (.invalidValue row.value)
  | .ok _ =>
    match createRecord st.store row.pv with
    | .error n => .error (.duplicateName n)
    | .ok store2 => .ok ⟨store2, dictSet st.pvDict row.pv rowId⟩

/-- The whole row loop: rows are processed in file order and the first
exception aborts the loop, leaving the state built so far. -/
def processFbRows (st : BuildState) (rowId : Nat) :
    List FbRow → BuildState × Option BuildErr
  | [] => (st, none)
  | r :: rs =>
    match processFbRow st rowId r with
    | .error e => (st, some e)
    | .ok st2 => processFbRows st2 (rowId + 1) rs

/-- A resolved mirror input: a record owned by the virtac, or the
channel-access fallback CaPV(name) for a name absent from _pv_dict. -/
inductive InputRef where
  | owned (name : String)
  | ca (name : String)
deriving DecidableEq, Repr

/-- The input lookup of _create_mirror_records: _pv_dict[name] with the
KeyError handler that produces CaPV(name). -/
def resolveInput (pvNames : List String) (name : String) : InputRef :=
  if name ∈ pvNames then .owned name else .ca name

/-- A row of the mirror csv file. -/
structure MirrorRow where
  inPv : List String
  mirrorType : String
  outPv : String
  value : String
  outputType : String
  scan : String
deriving DecidableEq, Repr

/-- A constructed mirror node. -/
structure MirrorNode where
  name : String
  mtype : String
  inputs : List InputRef
  initialValue : ParsedValue
deriving DecidableEq, Repr

/-- One iteration of the _create_mirror_records loop, against the names
already present in _pv_dict and the external record registry: arity checks,
input resolution with the channel-access fallback, value parsing, the
mirror-type dispatch, and the record creation performed by the output PV's
constructor.  Returns the constructed node and the updated registry. -/
def processMirrorRow (pvNames store : List String) (row : MirrorRow) :
    Except BuildErr (MirrorNode × List String) :=
  if row.inPv.length > 1 && row.mirrorType == "basic" then
    .error (.arityError "Transformation mirror type takes only one input PV.")
  else if row.inPv.length < 2 && (row.mirrorType == "collate" || row.mirrorType == "summate") then
    .error (.arityError "collation and summation mirror types take at least two input PVs.")
  else
    let inputs := row.inPv.map (resolveInput pvNames)
    match parseValue row.value with
    | .error _ => .error (.invalidValue row.value)
    | .ok v =>
      if row.mirrorType == "basic" || row.mirrorType == "inverse"
          || row.mirrorType == "summate" || row.mirrorType == "collate" then
        match createRecord store row.outPv with
        | .error n => .error (.duplicateName n)
        | .ok store2 => .ok (⟨row.outPv, row.mirrorType, inputs, v⟩, store2)
      else
        .error (.badMirrorType row.mirrorType)

/-- The checks of a mirror row that precede record creation: the two arity
checks, the mirror-type dispatch and the initial-value parse all succeed. -/
def mirrorRowWellFormed (row : MirrorRow) : Bool :=
  !(decide (row.inPv.length > 1) && row.mirrorType == "basic")
  && !(decide (row.inPv.length < 2)
      && (row.mirrorType == "collate" || row.mirrorType == "summate"))
  && (row.mirrorType == "basic" || row.mirrorType == "inverse"
      || row.mirrorType == "summate" || row.mirrorType == "collate")
  && (match parseValue row.value with | .ok _ => true | .error _ => false)

/-- One iteration of the _create_mirror_records loop against the running
construction state: inputs are resolved against the current _pv_dict, the
output record is created (the external registry rejects duplicates), and
the new PV is then inserted: self._pv_dict[out_pv_name] = output_pv. -/
def processMirrorRowState (st : BuildState) (rowId : Nat) (row : MirrorRow) :
    Except BuildErr BuildState :=
  match processMirrorRow (st.pvDict.map Prod.fst) st.store row with
  | .error e => .error e
  | .ok (_, store2) => .ok ⟨store2, dictSet st.pvDict row.outPv rowId⟩

/-- The whole mirror-row loop: rows are processed in file order and the
first exception aborts the loop, leaving the state built so far. -/
def processMirrorRows (st : BuildState) (rowId : Nat) :
    List MirrorRow → BuildState × Option BuildErr
  | [] => (st, none)
  | r :: rs =>
    match processMirrorRowState st rowId r with
    | .error e => (st, some e)
    | .ok st2 => processMirrorRows st2 (rowId + 1) rs

/-! ## Helper lemmas -/

/-- Name-uniqueness invariant of the construction state: the keys of _pv_dict
are pairwise distinct (each name maps to exactly one record) and every key
has a created softioc record. -/
def dictInv (st : BuildState) : Prop :=
  (st.pvDict.map Prod.fst).Nodup ∧ ∀ p ∈ st.pvDict, p.1 ∈ st.store

lemma createRecord_ok {store store2 : List String} {n : String}
    (h : createRecord store n = .ok store2) : n ∉ store ∧ store2 = store ++ [n] := by
  unfold createRecord at h
  by_cases hc : n ∈ store
  · simp [hc] at h
  · simp only [hc, if_false] at h
    exact ⟨hc, by simpa using h.symm⟩

lemma dictInv_processFbRow {st st2 : BuildState} {i : Nat} {r : FbRow}
    (h : processFbRow st i r = .ok st2) (hinv : dictInv st) : dictInv st2 := by
  unfold processFbRow at h
  cases hp : parseValue r.value with
  | error e => simp [hp] at h
  | ok v =>
    rw [hp] at h
    cases hc : createRecord st.store r.pv with
    | error n => simp [hc] at h
    | ok store2 =>
      rw [hc] at h
      obtain ⟨hnotin, hstore⟩ := createRecord_ok hc
      have hkey : r.pv ∉ st.pvDict.map Prod.fst := by
        intro hmem
        obtain ⟨p, hp1, hp2⟩ := List.mem_map.mp hmem
        exact hnotin (hp2 ▸ hinv.2 p hp1)
      have hd : dictSet st.pvDict r.pv i = st.pvDict ++ [(r.pv, i)] := by
        simp [dictSet, hkey]
      simp only [Except.ok.injEq] at h
      subst h
      constructor
      · simp only [hd, List.map_append, List.map_cons, List.map_nil]
        rw [List.nodup_append]
        exact ⟨hinv.1, List.nodup_singleton _, by simpa using hkey⟩
      · intro p hmem
        simp only [hd, List.mem_append, List.mem_singleton] at hmem
        rcases hmem with hmem | hmem
        · exact hstore ▸ List.mem_append_left _ (hinv.2 p hmem)
        · subst hmem
          simp [hstore]

lemma dictInv_processFbRows (rows : List FbRow) (st : BuildState) (i : Nat)
    (hinv : dictInv st) : dictInv (processFbRows st i rows).1 := by
  induction rows generalizing st i with
  | nil => simpa [processFbRows]
  | cons r rs ih =>
    cases h : processFbRow st i r with
    | error e => simpa [processFbRows, h]
    | ok st2 =>
      simpa [processFbRows, h] using ih st2 (i + 1) (dictInv_processFbRow h hinv)

lemma processMirrorRow_ok_inputs {pvNames store : List String} {row : MirrorRow}
    {node : MirrorNode} {store2 : List String}
    (h : processMirrorRow pvNames store row = .ok (node, store2)) :
    node.inputs = row.inPv.map (resolveInput pvNames) := by
  unfold processMirrorRow at h
  repeat' split at h
  any_goals exact Except.noConfusion h
  simp only [Except.ok.injEq, Prod.mk.injEq] at h
  rw [← h.1]

lemma dictInv_insert {st : BuildState} {k : String} {i : Nat} {store2 : List String}
    (hinv : dictInv st) (hnotin : k ∉ st.store) (hst : store2 = st.store ++ [k]) :
    dictInv ⟨store2, dictSet st.pvDict k i⟩ := by
  have hkey : k ∉ st.pvDict.map Prod.fst := by
    intro hmem
    obtain ⟨p, hp1, hp2⟩ := List.mem_map.mp hmem
    exact hnotin (hp2 ▸ hinv.2 p hp1)
  have hd : dictSet st.pvDict k i = st.pvDict ++ [(k, i)] := by
    simp [dictSet, hkey]
  constructor
  · simp only [hd, List.map_append, List.map_cons, List.map_nil]
    rw [List.nodup_append]
    exact ⟨hinv.1, List.nodup_singleton _, by simpa using hkey⟩
  · intro p hmem
    simp only [hd, List.mem_append, List.mem_singleton] at hmem
    rcases hmem with hmem | hmem
    · exact hst ▸ List.mem_append_left _ (hinv.2 p hmem)
    · subst hmem
      simp [hst]

lemma processMirrorRow_ok_store {pvNames store : List String} {row : MirrorRow}
    {node : MirrorNode} {store2 : List String}
    (h : processMirrorRow pvNames store row = .ok (node, store2)) :
    row.outPv ∉ store ∧ store2 = store ++ [row.outPv] := by
  unfold processMirrorRow at h
  repeat' split at h
  any_goals exact Except.noConfusion h
  rename_i store2x heq
  simp only [Except.ok.injEq, Prod.mk.injEq] at h
  obtain ⟨hnotin, hst⟩ := createRecord_ok heq
  exact ⟨hnotin, h.2 ▸ hst⟩

lemma processMirrorRow_duplicate {pvNames store : List String} {row : MirrorRow}
    (hwf : mirrorRowWellFormed row = true) (hdup : row.outPv ∈ store) :
    processMirrorRow pvNames store row = .error (.duplicateName row.outPv) := by
  have hwf2 := hwf
  unfold mirrorRowWellFormed at hwf2
  simp only [Bool.and_eq_true, Bool.not_eq_true'] at hwf2
  obtain ⟨⟨⟨h1, h2⟩, h3⟩, h4⟩ := hwf2
  cases hp : parseValue row.value with
  | error e => rw [hp] at h4; simp at h4
  | ok v => simp [processMirrorRow, h1, h2, h3, hp, createRecord, hdup]

lemma dictInv_processMirrorRowState {st st2 : BuildState} {i : Nat} {r : MirrorRow}
    (h : processMirrorRowState st i r = .ok st2) (hinv : dictInv st) : dictInv st2 := by
  unfold processMirrorRowState at h
  cases hm : processMirrorRow (st.pvDict.map Prod.fst) st.store r with
  | error e => rw [hm] at h; exact Except.noConfusion h
  | ok p =>
    obtain ⟨node, store2⟩ := p
    rw [hm] at h
    simp only [Except.ok.injEq] at h
    subst h
    obtain ⟨hnotin, hst⟩ := processMirrorRow_ok_store hm
    exact dictInv_insert hinv hnotin hst

lemma dictInv_processMirrorRows (rows : List MirrorRow) (st : BuildState) (i : Nat)
    (hinv : dictInv st) : dictInv (processMirrorRows st i rows).1 := by
  induction rows generalizing st i with
  | nil => simpa [processMirrorRows]
  | cons r rs ih =>
    cases h : processMirrorRowState st i r with
    | error e => simpa [processMirrorRows, h]
    | ok st2 =>
      simpa [processMirrorRows, h] using
        ih st2 (i + 1) (dictInv_processMirrorRowState h hinv)

/-! ## Claims -/

/-- C3: for every offset-capable setpoint node processing a written value v
while an attached offset record holds delta d, the value pushed to every
bound simulator item equals v + d, while the paired readback record is set
to the unmodified v; the offset never appears in the externally visible
setpoint or readback record.  For the chain: a RefreshPV notification with
delta d stores d, forces the setpoint to reprocess, and yields simulator
writes of setpoint + d with readback and setpoint records holding the
unmodified setpoint value. -/
theorem offset_applied_to_sim_only (s : OffsetState) (v d : ℚ)
    (h : s.offsetRecord = some d) :
    ((offsetOnUpdate v s).1.simWrites = s.simWrites.map (fun _ => v + d)
      ∧ (offsetOnUpdate v s).1.readbackRecord = v
      ∧ (offsetOnUpdate v s).1.setpointRecord = s.setpointRecord
      ∧ (offsetOnUpdate v s).2 = none)
    ∧ ((refreshNotify d s).1.simWrites
          = s.simWrites.map (fun _ => s.setpointRecord + d)
      ∧ (refreshNotify d s).1.readbackRecord = s.setpointRecord
      ∧ (refreshNotify d s).1.setpointRecord = s.setpointRecord) := by
  constructor
  · simp [offsetOnUpdate, h]
  · simp [refreshNotify, offsetOnUpdate]

/-- Witness for C3: base value 10 with delta 5/2 gives a simulator-facing
write of 25/2 and visible setpoint/readback records of 10. -/
theorem offset_applied_to_sim_only_witness :
    (offsetOnUpdate 10 ⟨some (5/2), 10, 0, [0]⟩).1.simWrites = [25/2]
    ∧ (offsetOnUpdate 10 ⟨some (5/2), 10, 0, [0]⟩).1.readbackRecord = 10
    ∧ (refreshNotify (5/2) ⟨some (5/2), 10, 0, [0]⟩).1.simWrites = [25/2] := by
  have h1 := offset_applied_to_sim_only ⟨some (5/2), 10, 0, [0]⟩ 10 (5/2) rfl
  refine ⟨h1.1.1.trans ?_, h1.1.2.1, h1.2.1.trans ?_⟩
  · norm_num
  · norm_num

/-- C10: when an OffsetPV's record processes while no offset record is
attached, a ValueError is raised, but only after the unmodified value has
already been stored into the paired readback record; the readback changes
even though nothing is pushed to the simulator. -/
theorem offset_update_without_offset_nonatomic (s : OffsetState) (v : ℚ)
    (h : s.offsetRecord = none) :
    (offsetOnUpdate v s).2 = some "No offset record specified for OffsetPV"
    ∧ (offsetOnUpdate v s).1.readbackRecord = v
    ∧ (offsetOnUpdate v s).1.simWrites = s.simWrites := by
  simp [offsetOnUpdate, h]

/-- Witness for C10: writing 7 with no offset attached raises after setting
the readback to 7, leaving the simulator value 3 untouched. -/
theorem offset_update_without_offset_nonatomic_witness :
    (offsetOnUpdate 7 ⟨none, 0, 0, [3]⟩).2.isSome = true
    ∧ (offsetOnUpdate 7 ⟨none, 0, 0, [3]⟩).1.readbackRecord = 7
    ∧ (offsetOnUpdate 7 ⟨none, 0, 0, [3]⟩).1.simWrites = [3] := by
  have h := offset_update_without_offset_nonatomic ⟨none, 0, 0, [3]⟩ 7 rfl
  exact ⟨by rw [h.1]; rfl, h.2.1, h.2.2⟩

/-- C7: on every notification a SummationPV ignores the notified value,
re-reads every subscribed source, and stores the scalar sum in its own
record; with sources holding 2.0 and 3.5 the record reads exactly 5.5. -/
theorem summate_rereads_and_stores_sum (v : Option ℚ) (i : Option Nat)
    (s : SummationState) :
    (summateNotify v i s).record = s.sources.sum
    ∧ (summateNotify v i s).sources = s.sources
    ∧ (summateNotify (some 2) none ⟨[2, 7/2], 0⟩).record = 11/2 := by
  refine ⟨by simp [summateNotify], by simp [summateNotify], ?_⟩
  simp [summateNotify]
  norm_num

/-- C8: an InversionPV with exactly one source treats the notified value as
a boolean vector and stores its elementwise inversion ([1,0,1] gives
[0,1,0]); with several sources it re-reads all sources, builds a boolean
array from their current values, inverts it and stores the result. -/
theorem invert_single_and_multi_source (v : List ℚ) (i : Option Nat)
    (s : InversionState) :
    (s.sources.length = 1 →
      invertNotify v i s = .ok { s with record := v.map invertElem })
    ∧ (s.sources.length > 1 →
      invertNotify v i s = .ok { s with record := s.sources.map invertElem })
    ∧ invertNotify [1, 0, 1] none ⟨[9], [0, 0, 0]⟩ = .ok ⟨[9], [0, 1, 0]⟩ := by
  refine ⟨fun h => by simp [invertNotify, h], fun h => ?_, by decide⟩
  have h1 : s.sources.length ≠ 1 := by omega
  simp [invertNotify, h, h1]

/-- Witness for C8: a two-source InversionPV holding 2 and 0 stores [0, 1]
regardless of the notified value. -/
theorem invert_single_and_multi_source_witness :
    invertNotify [5] none ⟨[2, 0], [0]⟩ = .ok ⟨[2, 0], [0, 1]⟩ := by
  have h := (invert_single_and_multi_source [5] none ⟨[2, 0], [0]⟩).2.1 (by decide)
  exact h.trans (by decide)

/-- C6 counterexample: a CollationPV with sources [4, 7] receiving a
notification carrying index 0 and value 99 does not store [99, 7] — the
notification callback ignores both the value and the index and leaves the
record unchanged, only marking an update pending. -/
theorem collate_notification_ignores_index_and_value :
    (setUpdateRequired (some 99) (some 0) ⟨[4, 7], [4, 7], false, 0⟩).record = [4, 7]
    ∧ (setUpdateRequired (some 99) (some 0) ⟨[4, 7], [4, 7], false, 0⟩).record ≠ [99, 7]
    ∧ (setUpdateRequired (some 99) (some 0) ⟨[4, 7], [4, 7], false, 0⟩).updateRequired
        = true := by
  refine ⟨rfl, ?_, rfl⟩
  intro h
  rw [show (setUpdateRequired (some 99) (some 0)
      ⟨[4, 7], [4, 7], false, 0⟩).record = [4, 7] from rfl] at h
  have h4 : (4 : ℚ) = 99 := by injection h
  norm_num at h4

/-- C6 amended: a Collate node's notification callback ignores the notified
value and index and only marks an update pending, leaving the record
unchanged; the drain pass re-reads every source and stores the array of all
current source values, one slot per source. -/
theorem collate_pending_flag_and_drain (v : Option ℚ) (i : Option Nat)
    (s : CollationState) (now : ℚ) :
    (setUpdateRequired v i s).record = s.record
    ∧ (setUpdateRequired v i s).updateRequired = true
    ∧ (setUpdateRequired v i s).sources = s.sources
    ∧ (collate now s).1.record = s.sources
    ∧ (collate now s).1.record.length = s.sources.length
    ∧ (collate now s).1.updateRequired = false := by
  refine ⟨rfl, rfl, rfl, ?_, ?_, ?_⟩ <;> simp [collate]

/-- C5: a burst of notifications followed by one drain pass produces exactly
one stored update reflecting all current source values — but the drain does
not enforce the claimed one-pass-per-0.2 s ceiling: with the previous store
at t = 0 and the drain entering collate at t = 1/20, collate sleeps only the
elapsed time (time.time() - _last_update_time) instead of the remaining
time, so the next store lands at t = 1/10, strictly less than
minimumTimeBetweenUpdates after the previous store: two stores inside one
minimum interval. -/
theorem collate_rate_ceiling_violated :
    (periodicUpdateStep (1/20) (setUpdateRequired (some 1) (some 0)
        (setUpdateRequired (some 2) (some 1) ⟨[4, 7], [0, 0], false, 0⟩))).1.record
      = [4, 7]
    ∧ (periodicUpdateStep (1/20) (setUpdateRequired (some 1) (some 0)
        (setUpdateRequired (some 2) (some 1) ⟨[4, 7], [0, 0], false, 0⟩))).2
      = some (1/10)
    ∧ (1/10 : ℚ) - (0 : ℚ) < minimumTimeBetweenUpdates := by
  refine ⟨?_, ?_, ?_⟩
  · simp [periodicUpdateStep, setUpdateRequired, collate]
  · simp [periodicUpdateStep, setUpdateRequired, collate, minimumTimeBetweenUpdates]
    norm_num
  · simp [minimumTimeBetweenUpdates]
    norm_num

/-- C4: one disable/enable cycle with no intervening source changes does not
reproduce the prior subscription set.  For a MonitorPV constructed over
["A", "B"] with the default shared callback, re-enabling turns the shared
group subscription into per-name subscriptions, doubles the remembered
_monitor_data, and a second cycle doubles the number of live camonitor
subscriptions — the set is recomputed and grown, not preserved. -/
theorem toggle_monitoring_grows_subscriptions :
    (toggleMonitoring true 0 (toggleMonitoring false 0 (monitorInit ["A", "B"] none 0))).handles
      ≠ (monitorInit ["A", "B"] none 0).handles
    ∧ (toggleMonitoring true 0 (toggleMonitoring false 0 (monitorInit ["A", "B"] none 0))).monitorData
      = (monitorInit ["A", "B"] none 0).monitorData ++ (monitorInit ["A", "B"] none 0).monitorData
    ∧ (toggleMonitoring true 0 (toggleMonitoring false 0
        (toggleMonitoring true 0 (toggleMonitoring false 0
          (monitorInit ["A", "B"] none 0))))).handles.length
      = 2 * (monitorInit ["A", "B"] none 0).handles.length := by
  decide

/-- C1 counterexample: a mirror row whose single input name "MISSING" has
not been constructed does not fail with any unresolved-reference error —
the row is processed successfully and a mirror node is created whose input
is the channel-access fallback CaPV("MISSING"). -/
theorem missing_mirror_input_does_not_fail :
    processMirrorRow ["A"] ["A"]
        ⟨["MISSING"], "basic", "M1", "0", "ai", "I/O Intr"⟩
      = .ok (⟨"M1", "basic", [.ca "MISSING"], .scalar 0⟩, ["A", "M1"]) := by
  decide

/-- C1 amended: a mirror row referencing an input name not yet constructed
does not abort construction; every such name resolves through the KeyError
handler to the channel-access fallback CaPV(name), and the mirror node is
created with that fallback among its inputs. -/
theorem missing_mirror_input_falls_back_to_ca
    (pvNames store : List String) (row : MirrorRow) (node : MirrorNode)
    (store2 : List String) (n : String)
    (hok : processMirrorRow pvNames store row = .ok (node, store2))
    (hn : n ∈ row.inPv) (hmiss : n ∉ pvNames) :
    InputRef.ca n ∈ node.inputs := by
  rw [processMirrorRow_ok_inputs hok]
  exact List.mem_map.mpr ⟨n, hn, by simp [resolveInput, hmiss]⟩

/-- Witness for C1 amended: the missing name "MISSING" ends up as a CaPV
input of the constructed mirror node. -/
theorem missing_mirror_input_falls_back_to_ca_witness :
    InputRef.ca "MISSING"
      ∈ (MirrorNode.mk "M1" "basic" [.ca "MISSING"] (.scalar 0)).inputs := by
  exact missing_mirror_input_falls_back_to_ca ["A"] ["A"]
    ⟨["MISSING"], "basic", "M1", "0", "ai", "I/O Intr"⟩
    ⟨"M1", "basic", [.ca "MISSING"], .scalar 0⟩ ["A", "M1"] "MISSING"
    (by decide) (by decide) (by decide)

/-- C2: a configuration row — feedback/bba or mirror — that re-defines an
already created record name fails with DuplicateNameError naming it, the
row loop aborts without touching _pv_dict (the first record stays reachable
under the name, with the same binding as before), and on every run of the
feedback/bba loop followed by the mirror loop each name maps to exactly one
record (the keys of _pv_dict stay pairwise distinct). -/
theorem duplicate_name_fails_construction
    (st : BuildState) (i : Nat) (rows : List FbRow) (r : FbRow)
    (hinv : dictInv st) (hdup : r.pv ∈ st.store)
    (hval : ∃ pv, parseValue r.value = .ok pv) :
    processFbRow st i r = .error (.duplicateName r.pv)
    ∧ processFbRows st i (r :: rows) = (st, some (.duplicateName r.pv))
    ∧ dictGet (processFbRows st i (r :: rows)).1.pvDict r.pv = dictGet st.pvDict r.pv
    ∧ (∀ (mr : MirrorRow) (mrows : List MirrorRow) (j : Nat),
        mirrorRowWellFormed mr = true → mr.outPv ∈ st.store →
        processMirrorRowState st j mr = .error (.duplicateName mr.outPv)
        ∧ processMirrorRows st j (mr :: mrows) = (st, some (.duplicateName mr.outPv))
        ∧ dictGet (processMirrorRows st j (mr :: mrows)).1.pvDict mr.outPv
            = dictGet st.pvDict mr.outPv)
    ∧ ∀ (rows2 : List FbRow) (mrows2 : List MirrorRow) (j k : Nat),
        dictInv (processMirrorRows (processFbRows st j rows2).1 k mrows2).1 := by
  obtain ⟨pv, hpv⟩ := hval
  have h1 : processFbRow st i r = .error (.duplicateName r.pv) := by
    simp [processFbRow, hpv, createRecord, hdup]
  have h2 : processFbRows st i (r :: rows) = (st, some (.duplicateName r.pv)) := by
    simp [processFbRows, h1]
  refine ⟨h1, h2, by rw [h2], ?_, ?_⟩
  · intro mr mrows j hwf hmdup
    have hm : processMirrorRowState st j mr = .error (.duplicateName mr.outPv) := by
      simp [processMirrorRowState, processMirrorRow_duplicate hwf hmdup]
    have hm2 : processMirrorRows st j (mr :: mrows)
        = (st, some (.duplicateName mr.outPv)) := by
      simp [processMirrorRows, hm]
    exact ⟨hm, hm2, by rw [hm2]⟩
  · intro rows2 mrows2 j k
    exact dictInv_processMirrorRows mrows2 _ k (dictInv_processFbRows rows2 st j hinv)

/-- Witness for C2: with record "X" already created and bound to PV 0, a
second feedback row defining "X" and a mirror row with out_pv "X" each fail
with DuplicateNameError, and "X" still looks up to PV 0. -/
theorem duplicate_name_fails_construction_witness :
    processFbRow ⟨["X"], [("X", 0)]⟩ 1 ⟨"X", "1"⟩ = .error (.duplicateName "X")
    ∧ dictGet (processFbRows ⟨["X"], [("X", 0)]⟩ 1 [⟨"X", "1"⟩]).1.pvDict "X"
        = some 0
    ∧ processMirrorRowState ⟨["X"], [("X", 0)]⟩ 1
        ⟨["X"], "basic", "X", "1", "ai", "I/O Intr"⟩
        = .error (.duplicateName "X")
    ∧ dictGet (processMirrorRows ⟨["X"], [("X", 0)]⟩ 1
        [⟨["X"], "basic", "X", "1", "ai", "I/O Intr"⟩]).1.pvDict "X" = some 0 := by
  have h := duplicate_name_fails_construction ⟨["X"], [("X", 0)]⟩ 1 [] ⟨"X", "1"⟩
    ⟨by decide, by decide⟩ (by decide) ⟨.scalar 1, by decide⟩
  have hm := h.2.2.2.1 ⟨["X"], "basic", "X", "1", "ai", "I/O Intr"⟩ [] 1
    (by decide) (by decide)
  exact ⟨h.1, by rw [h.2.2.1]; decide, hm.1, by rw [hm.2.2]; decide⟩

end Virtac
